import Mathlib

/-!
Verification of the rate-limiter / request-admission subsystem of the
`ai-hero` repository (`src/app.py`, class `RateLimiter`).

Timestamps (Python `time.time()` floats) are modelled as rationals `ℚ`.
The mutable object state is the structure `RateLimiter`; each Python method
becomes a pure function that takes the state and the current time and
returns the new state together with the method's result.  Denial reasons
(Python f-strings) are modelled as an inductive type carrying the numeric
payload that the source interpolates into the string.
-/

namespace AiHero

/-- Configuration constant `MAX_REQUESTS_PER_MINUTE = 10` from `src/app.py`. -/
def MAX_REQUESTS_PER_MINUTE : ℕ := 10

/-- Configuration constant `MAX_REQUESTS_PER_DAY = 1500` from `src/app.py`. -/
def MAX_REQUESTS_PER_DAY : ℕ := 1500

/-- Configuration constant `MAX_TOKENS_PER_MINUTE = 1000000` from `src/app.py`. -/
def MAX_TOKENS_PER_MINUTE : ℕ := 1000000

/-- Configuration constant `REQUEST_COOLDOWN = 6.0` seconds from `src/app.py`. -/
def REQUEST_COOLDOWN : ℚ := 6

/-- In-memory state of the Python `RateLimiter` object: the three timestamp
lists and `last_request_time` (sentinel `0` means "never"). -/
structure RateLimiter where
  minute_requests : List ℚ
  daily_requests : List ℚ
  request_timestamps : List ℚ
  last_request_time : ℚ
deriving DecidableEq, Repr

/-- `RateLimiter.reset_state`: empty lists and sentinel `last_request_time = 0`. -/
def reset_state : RateLimiter :=
  { minute_requests := []
    daily_requests := []
    request_timestamps := []
    last_request_time := 0 }

/-- The JSON object written by `RateLimiter.save_state`: only
`minute_requests`, `daily_requests` and `last_request_time` are persisted
(the burst list `request_timestamps` is not). -/
structure PersistedState where
  minute_requests : List ℚ
  daily_requests : List ℚ
  last_request_time : ℚ
deriving DecidableEq, Repr

/-- `RateLimiter.save_state`: the state dictionary it serialises. -/
def save_state (s : RateLimiter) : PersistedState :=
  { minute_requests := s.minute_requests
    daily_requests := s.daily_requests
    last_request_time := s.last_request_time }

/-- Outcome of attempting to read the persisted state file in
`RateLimiter.load_state`: the file parses to a state, is absent, or raises
(corrupt / unreadable — the `except Exception` branch). -/
inductive LoadResult where
  | ok (p : PersistedState)
  | absent
  | corrupt
deriving DecidableEq, Repr

/-- `RateLimiter.__init__` = `load_state()` followed by
`self.request_timestamps = []`: on a successful read the three persisted
fields are restored and the burst list starts empty; on an absent or
corrupt file `reset_state()` is used.  No exception escapes. -/
def load_state : LoadResult → RateLimiter
  | .ok p =>
      { minute_requests := p.minute_requests
        daily_requests := p.daily_requests
        request_timestamps := []
        last_request_time := p.last_request_time }
  | .absent => reset_state
  | .corrupt => reset_state

/-- `RateLimiter.clean_old_requests`: prune each list to its sliding window
(60 s for minute, 86400 s for daily, 300 s for burst), keeping timestamps
strictly greater than `now - window`. -/
def clean_old_requests (s : RateLimiter) (now : ℚ) : RateLimiter :=
  { minute_requests := s.minute_requests.filter (fun t => decide (now - 60 < t))
    daily_requests := s.daily_requests.filter (fun t => decide (now - 86400 < t))
    request_timestamps := s.request_timestamps.filter (fun t => decide (now - 300 < t))
    last_request_time := s.last_request_time }

/-- `RateLimiter.calculate_backoff_time`: if the burst list holds at least 3
timestamps and its trailing-60-second subset (`recent_requests`) also holds
at least 3, return `min (2 ^ (count recent - 2)) 60`, else `0`. -/
def calculate_backoff_time (s : RateLimiter) (now : ℚ) : ℚ :=
  if 3 ≤ s.request_timestamps.length then
    let recent_requests := s.request_timestamps.filter (fun t => decide (now - 60 < t))
    if 3 ≤ recent_requests.length then
      min ((2 : ℚ) ^ (recent_requests.length - 2)) 60
    else 0
  else 0

/-- Denial reasons returned by `can_make_request`, carrying the numeric value
that the Python code interpolates into the corresponding f-string:
`minuteLimit w` is "Minute limit exceeded. Wait {w:.0f}s.",
`dailyLimit` is the static "Daily limit reached. Resets at midnight PT.",
`cooldown w` is "Please wait {w:.1f}s before next request.". -/
inductive Reason where
  | minuteLimit (wait_time : ℚ)
  | dailyLimit
  | cooldown (wait_time : ℚ)
deriving DecidableEq, Repr

/-- Python `min` over a nonempty list (the only way the source calls it). -/
def listMin : List ℚ → ℚ
  | [] => 0
  | t :: ts => ts.foldl min t

/-- `RateLimiter.can_make_request`: prune, then check the minute ceiling,
the daily ceiling, and the cooldown+backoff spacing, in that order; returns
the pruned state (the method mutates `self` by pruning) together with
`(allowed, reason)`. -/
def can_make_request (s : RateLimiter) (now : ℚ) : RateLimiter × Bool × Option Reason :=
  let s' := clean_old_requests s now
  if MAX_REQUESTS_PER_MINUTE ≤ s'.minute_requests.length then
    let oldest_request := listMin s'.minute_requests
    let wait_time := 60 - (now - oldest_request)
    (s', false, some (Reason.minuteLimit wait_time))
  else if MAX_REQUESTS_PER_DAY ≤ s'.daily_requests.length then
    (s', false, some Reason.dailyLimit)
  else if 0 < s'.last_request_time then
    let elapsed := now - s'.last_request_time
    let cooldown := REQUEST_COOLDOWN + calculate_backoff_time s' now
    if elapsed < cooldown then
      (s', false, some (Reason.cooldown (cooldown - elapsed)))
    else
      (s', true, none)
  else
    (s', true, none)

/-- `RateLimiter.record_request`: unconditionally append `now` to all three
lists and set `last_request_time = now` (persistence via `save_state` is
modelled separately). -/
def record_request (s : RateLimiter) (now : ℚ) : RateLimiter :=
  { minute_requests := s.minute_requests ++ [now]
    daily_requests := s.daily_requests ++ [now]
    request_timestamps := s.request_timestamps ++ [now]
    last_request_time := now }

/-- `record_request` together with its `save_state()` call, whose file write
may fail (`saveOk = false` models the caught exception): the in-memory state
is the recorded one either way; the persisted snapshot exists only on
success. -/
def record_request_persist (s : RateLimiter) (now : ℚ) (saveOk : Bool) :
    RateLimiter × Option PersistedState :=
  let s' := record_request s now
  (s', if saveOk then some (save_state s') else none)

/-- The dictionary returned by `RateLimiter.get_stats`.  The remaining
counts are Python ints that may go negative, hence `ℤ`. -/
structure Stats where
  minute_used : ℕ
  minute_limit : ℕ
  minute_remaining : ℤ
  daily_used : ℕ
  daily_limit : ℕ
  daily_remaining : ℤ
  tokens_per_minute : ℕ
deriving DecidableEq, Repr

/-- `RateLimiter.get_stats`: prune, then report used/limit/remaining for
the minute and daily windows plus the informational token budget; returns
the pruned state (the method mutates `self` by pruning). -/
def get_stats (s : RateLimiter) (now : ℚ) : RateLimiter × Stats :=
  let s' := clean_old_requests s now
  (s',
    { minute_used := s'.minute_requests.length
      minute_limit := MAX_REQUESTS_PER_MINUTE
      minute_remaining := (MAX_REQUESTS_PER_MINUTE : ℤ) - s'.minute_requests.length
      daily_used := s'.daily_requests.length
      daily_limit := MAX_REQUESTS_PER_DAY
      daily_remaining := (MAX_REQUESTS_PER_DAY : ℤ) - s'.daily_requests.length
      tokens_per_minute := MAX_TOKENS_PER_MINUTE })

/-- Applying a batch of `record_request` calls in order. -/
def recordAll (s : RateLimiter) (ts : List ℚ) : RateLimiter :=
  ts.foldl record_request s

/-- A controller operation at a given time: a pruning read
(`can_make_request` / `get_stats`) or a `record_request`. -/
inductive Op where
  | prune (t : ℚ)
  | record (t : ℚ)
deriving DecidableEq, Repr

/-- The effect of one operation on the state. -/
def applyOp (s : RateLimiter) : Op → RateLimiter
  | .prune t => clean_old_requests s t
  | .record t => record_request s t

/-- Running a sequence of controller operations. -/
def applyOps (s : RateLimiter) (ops : List Op) : RateLimiter :=
  ops.foldl applyOp s

/-- The timestamp of an operation. -/
def opTime : Op → ℚ
  | .prune t => t
  | .record t => t

/-- All timestamps in all three lists of the state are at most `b`. -/
def listsBounded (s : RateLimiter) (b : ℚ) : Prop :=
  (∀ x ∈ s.minute_requests, x ≤ b) ∧
  (∀ x ∈ s.daily_requests, x ≤ b) ∧
  (∀ x ∈ s.request_timestamps, x ≤ b)

instance (s : RateLimiter) (b : ℚ) : Decidable (listsBounded s b) := by
  unfold listsBounded; infer_instance

/-! Concrete states used as evaluation inputs below. -/

/-- Ten calls recorded at time 1. -/
def s10 : RateLimiter := recordAll reset_state (List.replicate 10 1)

/-- Ten calls recorded at time 0 (the spec's window-eviction example). -/
def s10z : RateLimiter := recordAll reset_state (List.replicate 10 0)

/-- Nine calls in the minute window after a restart (burst list empty,
as `load_state` reconstructs it), last call at time 18. -/
def s9 : RateLimiter :=
  { minute_requests := [10, 11, 12, 13, 14, 15, 16, 17, 18]
    daily_requests := [10, 11, 12, 13, 14, 15, 16, 17, 18]
    request_timestamps := []
    last_request_time := 18 }

/-- One call recorded at time 1. -/
def sC3 : RateLimiter := recordAll reset_state [1]

/-- The rational 7.01 (so that `7.01 - 1 = 6.01` seconds have elapsed). -/
def q701 : ℚ := ⟨701, 100, by decide, by decide⟩

/-- A state with `n` timestamps in the burst list and nothing else. -/
def burstState (n : ℕ) : RateLimiter :=
  { reset_state with request_timestamps := List.replicate n 0 }

/-- 1500 calls recorded at time 1 (the daily ceiling exactly reached). -/
def sDayFull : RateLimiter := recordAll reset_state (List.replicate 1500 1)

/-
The arithmetic kernels of `Rat` are `@[irreducible]` in core; making them
semireducible again lets `decide` evaluate the model on concrete states.
-/
attribute [local semireducible] Rat.sub Rat.add Rat.mul

/-! Helper lemmas shared by the claim theorems. -/

/-- Re-filtering with a window cutoff at least as late keeps exactly the
entries of the later filter. -/
lemma filter_window_mono (l : List ℚ) (a b : ℚ) (h : a ≤ b) :
    List.filter (fun t => decide (b < t)) (List.filter (fun t => decide (a < t)) l) =
      List.filter (fun t => decide (b < t)) l := by
  induction l with
  | nil => rfl
  | cons x xs ih =>
    by_cases hax : a < x
    · by_cases hbx : b < x <;> simp [List.filter_cons, hax, hbx, ih]
    · have hbx : ¬b < x := fun hb => hax (lt_of_le_of_lt h hb)
      simp [List.filter_cons, hax, hbx, ih]

/-- Pruning twice at the same time is the same as pruning once. -/
lemma clean_idem (s : RateLimiter) (now : ℚ) :
    clean_old_requests (clean_old_requests s now) now = clean_old_requests s now := by
  simp only [clean_old_requests, RateLimiter.mk.injEq]
  exact ⟨filter_window_mono _ _ _ le_rfl, filter_window_mono _ _ _ le_rfl,
    filter_window_mono _ _ _ le_rfl, trivial⟩

/-- The state component returned by `can_make_request` is the pruned state. -/
lemma can_make_request_fst (s : RateLimiter) (now : ℚ) :
    (can_make_request s now).1 = clean_old_requests s now := by
  simp only [can_make_request]
  split_ifs <;> rfl

/-- `can_make_request` only looks at the pruned state. -/
lemma can_make_request_clean (s : RateLimiter) (now : ℚ) :
    can_make_request (clean_old_requests s now) now = can_make_request s now := by
  simp only [can_make_request, clean_idem]

/-- `recordAll` appends the batch of times to each of the three lists. -/
lemma recordAll_lists (s : RateLimiter) (ts : List ℚ) :
    (recordAll s ts).minute_requests = s.minute_requests ++ ts ∧
    (recordAll s ts).daily_requests = s.daily_requests ++ ts ∧
    (recordAll s ts).request_timestamps = s.request_timestamps ++ ts := by
  induction ts generalizing s with
  | nil => simp [recordAll]
  | cons t ts ih =>
    obtain ⟨h1, h2, h3⟩ := ih (record_request s t)
    have e : recordAll s (t :: ts) = recordAll (record_request s t) ts := rfl
    rw [e, h1, h2, h3]
    simp [record_request]

/-- Membership in a list with one element appended is bounded when the
list and the new element are. -/
lemma mem_append_single {x t : ℚ} {l : List ℚ} {b : ℚ} (hl : ∀ y ∈ l, y ≤ b)
    (ht : t ≤ b) (hx : x ∈ l ++ [t]) : x ≤ b := by
  rcases List.mem_append.mp hx with h | h
  · exact hl x h
  · rw [List.mem_singleton.mp h]; exact ht

/-- A larger bound still bounds the lists. -/
lemma listsBounded_mono {s : RateLimiter} {b c : ℚ} (h : listsBounded s b)
    (hbc : b ≤ c) : listsBounded s c :=
  ⟨fun x hx => (h.1 x hx).trans hbc, fun x hx => (h.2.1 x hx).trans hbc,
    fun x hx => (h.2.2 x hx).trans hbc⟩

/-- Pruning preserves any bound on the lists. -/
lemma listsBounded_clean {s : RateLimiter} (now : ℚ) {b : ℚ} (h : listsBounded s b) :
    listsBounded (clean_old_requests s now) b :=
  ⟨fun x hx => h.1 x (List.mem_of_mem_filter hx),
    fun x hx => h.2.1 x (List.mem_of_mem_filter hx),
    fun x hx => h.2.2 x (List.mem_of_mem_filter hx)⟩

/-- Recording a call no later than the bound preserves the bound. -/
lemma listsBounded_record {s : RateLimiter} {t c : ℚ} (h : listsBounded s c)
    (htc : t ≤ c) : listsBounded (record_request s t) c :=
  ⟨fun _ hx => mem_append_single h.1 htc hx,
    fun _ hx => mem_append_single h.2.1 htc hx,
    fun _ hx => mem_append_single h.2.2 htc hx⟩

/-- Any sequence of operations at times within the bound preserves it. -/
lemma listsBounded_applyOps (s : RateLimiter) (ops : List Op) (c : ℚ)
    (h : listsBounded s c) (hops : ∀ op ∈ ops, opTime op ≤ c) :
    listsBounded (applyOps s ops) c := by
  induction ops generalizing s with
  | nil => exact h
  | cons op ops ih =>
    have e : applyOps s (op :: ops) = applyOps (applyOp s op) ops := rfl
    rw [e]
    refine ih (applyOp s op) ?_ (fun o ho => hops o (List.mem_cons_of_mem _ ho))
    cases op with
    | prune t => exact listsBounded_clean t h
    | record t => exact listsBounded_record h (hops _ (List.mem_cons_self _ _))

/-! Claim theorems. -/

/-- C2: the backoff function returns `min (2 ^ (count recent - 2)) 60`
whenever the pruned 300-second burst list holds at least 3 timestamps and
its trailing-60-second subset (`recent`) also holds at least 3, and `0`
otherwise; for recent counts 3, 4, 5 and 10 it returns 2, 4, 8 and 60
(capped, not 256). -/
theorem backoff_formula_and_growth :
    (∀ (s : RateLimiter) (now : ℚ),
      calculate_backoff_time (clean_old_requests s now) now =
        if 3 ≤ (clean_old_requests s now).request_timestamps.length ∧
            3 ≤ ((clean_old_requests s now).request_timestamps.filter
                (fun t => decide (now - 60 < t))).length then
          min ((2 : ℚ) ^
            (((clean_old_requests s now).request_timestamps.filter
                (fun t => decide (now - 60 < t))).length - 2)) 60
        else 0) ∧
    calculate_backoff_time (burstState 3) 0 = 2 ∧
    calculate_backoff_time (burstState 4) 0 = 4 ∧
    calculate_backoff_time (burstState 5) 0 = 8 ∧
    calculate_backoff_time (burstState 10) 0 = 60 ∧
    calculate_backoff_time (burstState 2) 0 = 0 := by
  refine ⟨fun s now => ?_, by decide, by decide, by decide, by decide, by decide⟩
  simp only [calculate_backoff_time]
  split_ifs <;> tauto

/-- C4: when the pruned minute count is below its ceiling but the pruned
daily count has reached `MAX_REQUESTS_PER_DAY`, `can_make_request` denies
with the static daily-limit reason, which carries no computed countdown
(the `Reason.dailyLimit` constructor has no numeric payload), however close
the oldest daily entry is to leaving the 86400-second window. -/
theorem daily_ceiling_static_reason (s : RateLimiter) (now : ℚ)
    (hmin : (clean_old_requests s now).minute_requests.length < MAX_REQUESTS_PER_MINUTE)
    (hday : MAX_REQUESTS_PER_DAY ≤ (clean_old_requests s now).daily_requests.length) :
    can_make_request s now = (clean_old_requests s now, false, some Reason.dailyLimit) := by
  simp only [can_make_request]
  rw [if_neg (not_le.mpr hmin), if_pos hday]

/-- Witness for C4: with exactly 1500 recorded calls, the denial is the
static daily reason both shortly after recording and just before the
oldest entry leaves the daily window. -/
theorem daily_ceiling_static_reason_witness :
    (can_make_request sDayFull 100).2 = (false, some Reason.dailyLimit) ∧
    (can_make_request sDayFull 86000).2 = (false, some Reason.dailyLimit) := by
  have hm : sDayFull.minute_requests = List.replicate 1500 1 := by
    have h := (recordAll_lists reset_state (List.replicate 1500 1)).1
    rwa [show reset_state.minute_requests = [] from rfl, List.nil_append] at h
  have hd : sDayFull.daily_requests = List.replicate 1500 1 := by
    have h := (recordAll_lists reset_state (List.replicate 1500 1)).2.1
    rwa [show reset_state.daily_requests = [] from rfl, List.nil_append] at h
  have hmin100 : (clean_old_requests sDayFull 100).minute_requests.length <
      MAX_REQUESTS_PER_MINUTE := by
    have e : (clean_old_requests sDayFull 100).minute_requests = [] := by
      simp only [clean_old_requests]
      rw [hm]
      simp only [List.filter_replicate, decide_eq_true_eq]
      rw [if_neg (by norm_num)]
    rw [e]
    decide
  have hday100 : MAX_REQUESTS_PER_DAY ≤
      (clean_old_requests sDayFull 100).daily_requests.length := by
    have e : (clean_old_requests sDayFull 100).daily_requests = List.replicate 1500 1 := by
      simp only [clean_old_requests]
      rw [hd]
      simp only [List.filter_replicate, decide_eq_true_eq]
      rw [if_pos (by norm_num)]
    rw [e, List.length_replicate]
    decide
  have hmin86 : (clean_old_requests sDayFull 86000).minute_requests.length <
      MAX_REQUESTS_PER_MINUTE := by
    have e : (clean_old_requests sDayFull 86000).minute_requests = [] := by
      simp only [clean_old_requests]
      rw [hm]
      simp only [List.filter_replicate, decide_eq_true_eq]
      rw [if_neg (by norm_num)]
    rw [e]
    decide
  have hday86 : MAX_REQUESTS_PER_DAY ≤
      (clean_old_requests sDayFull 86000).daily_requests.length := by
    have e : (clean_old_requests sDayFull 86000).daily_requests = List.replicate 1500 1 := by
      simp only [clean_old_requests]
      rw [hd]
      simp only [List.filter_replicate, decide_eq_true_eq]
      rw [if_pos (by norm_num)]
    rw [e, List.length_replicate]
    decide
  exact ⟨congrArg Prod.snd (daily_ceiling_static_reason sDayFull 100 hmin100 hday100),
    congrArg Prod.snd (daily_ceiling_static_reason sDayFull 86000 hmin86 hday86)⟩

/-- C1: whenever the pruned minute list holds at least
`MAX_REQUESTS_PER_MINUTE` timestamps, `can_make_request` denies with a
reason carrying the wait time `60 - (now - min minuteRequests)`, with no
condition on the daily list or the cooldown (the minute check is decided
first); with one fewer call in the window, a daily count below its ceiling
and no cooldown interference, it allows. -/
theorem minute_ceiling_checked_first (s : RateLimiter) (now : ℚ) :
    (MAX_REQUESTS_PER_MINUTE ≤ (clean_old_requests s now).minute_requests.length →
      can_make_request s now =
        (clean_old_requests s now, false,
          some (Reason.minuteLimit
            (60 - (now - listMin (clean_old_requests s now).minute_requests))))) ∧
    ((clean_old_requests s now).minute_requests.length = MAX_REQUESTS_PER_MINUTE - 1 →
      (clean_old_requests s now).daily_requests.length < MAX_REQUESTS_PER_DAY →
      ((clean_old_requests s now).last_request_time ≤ 0 ∨
        REQUEST_COOLDOWN + calculate_backoff_time (clean_old_requests s now) now ≤
          now - (clean_old_requests s now).last_request_time) →
      can_make_request s now = (clean_old_requests s now, true, none)) := by
  constructor
  · intro h
    simp only [can_make_request]
    rw [if_pos h]
  · intro h9 hday hcool
    have hlt : ¬MAX_REQUESTS_PER_MINUTE ≤
        (clean_old_requests s now).minute_requests.length := by
      rw [h9]; decide
    simp only [can_make_request]
    rw [if_neg hlt, if_neg (not_le.mpr hday)]
    by_cases hl : 0 < (clean_old_requests s now).last_request_time
    · rcases hcool with hc | hc
      · exact absurd hl (not_lt.mpr hc)
      · rw [if_pos hl, if_neg (not_lt.mpr hc)]
    · rw [if_neg hl]

/-- Witness for C1: ten calls at time 1 are denied at time 1 with the
minute-limit wait reason even though the daily count is tiny; nine calls
in the window (burst list empty after a restart, cooldown elapsed) are
allowed. -/
theorem minute_ceiling_checked_first_witness :
    can_make_request s10 1 =
      (clean_old_requests s10 1, false,
        some (Reason.minuteLimit
          (60 - (1 - listMin (clean_old_requests s10 1).minute_requests)))) ∧
    can_make_request s9 25 = (clean_old_requests s9 25, true, none) :=
  ⟨(minute_ceiling_checked_first s10 1).1 (by decide),
   (minute_ceiling_checked_first s9 25).2 (by decide) (by decide) (by decide)⟩

/-- C3: when neither hard ceiling is hit and `last_request_time` is set,
an elapse below `REQUEST_COOLDOWN + backoff` is denied with the remaining
wait `(REQUEST_COOLDOWN + backoff) - elapsed` as the reason's payload, and
an elapse reaching the cooldown is allowed with reason `none`. -/
theorem cooldown_gate (s : RateLimiter) (now : ℚ)
    (hmin : (clean_old_requests s now).minute_requests.length < MAX_REQUESTS_PER_MINUTE)
    (hday : (clean_old_requests s now).daily_requests.length < MAX_REQUESTS_PER_DAY)
    (hlast : 0 < (clean_old_requests s now).last_request_time) :
    (now - (clean_old_requests s now).last_request_time <
        REQUEST_COOLDOWN + calculate_backoff_time (clean_old_requests s now) now →
      can_make_request s now =
        (clean_old_requests s now, false,
          some (Reason.cooldown
            (REQUEST_COOLDOWN + calculate_backoff_time (clean_old_requests s now) now -
              (now - (clean_old_requests s now).last_request_time))))) ∧
    (REQUEST_COOLDOWN + calculate_backoff_time (clean_old_requests s now) now ≤
        now - (clean_old_requests s now).last_request_time →
      can_make_request s now = (clean_old_requests s now, true, none)) := by
  constructor
  · intro hc
    simp only [can_make_request]
    rw [if_neg (not_le.mpr hmin), if_neg (not_le.mpr hday), if_pos hlast, if_pos hc]
  · intro hc
    simp only [can_make_request]
    rw [if_neg (not_le.mpr hmin), if_neg (not_le.mpr hday), if_pos hlast,
      if_neg (not_lt.mpr hc)]

/-- Witness for C3: after one call at time 1 (cooldown 6, zero backoff),
`can_make_request` at time 4 (3 s elapsed) denies with a remaining wait of
exactly 3 s, and at time 7.01 (6.01 s elapsed) allows. -/
theorem cooldown_gate_witness :
    can_make_request sC3 4 =
      (clean_old_requests sC3 4, false, some (Reason.cooldown 3)) ∧
    can_make_request sC3 q701 = (clean_old_requests sC3 q701, true, none) := by
  have h1 := (cooldown_gate sC3 4 (by decide) (by decide) (by decide)).1 (by decide)
  have h2 := (cooldown_gate sC3 q701 (by decide) (by decide) (by decide)).2 (by decide)
  exact ⟨by rw [h1]; decide, h2⟩

/-- C5: both read operations return the state pruned to the three windows
(60 s / 86400 s / 300 s), so expired entries never influence a decision;
after ten calls at time 0, at time 61 the effective minute count is 0 and
the call is allowed rather than denied on the minute limit. -/
theorem reads_prune_to_windows :
    (∀ (s : RateLimiter) (now : ℚ),
      (can_make_request s now).1 = clean_old_requests s now ∧
      (get_stats s now).1 = clean_old_requests s now ∧
      (clean_old_requests s now).minute_requests =
        s.minute_requests.filter (fun t => decide (now - 60 < t)) ∧
      (clean_old_requests s now).daily_requests =
        s.daily_requests.filter (fun t => decide (now - 86400 < t)) ∧
      (clean_old_requests s now).request_timestamps =
        s.request_timestamps.filter (fun t => decide (now - 300 < t)) ∧
      (clean_old_requests s now).last_request_time = s.last_request_time) ∧
    (clean_old_requests s10z 61).minute_requests = [] ∧
    can_make_request s10z 61 = (clean_old_requests s10z 61, true, none) :=
  ⟨fun s now => ⟨can_make_request_fst s now, rfl, rfl, rfl, rfl, rfl⟩, by decide, by decide⟩

/-- C8: storage failures never propagate: an absent or corrupt state file
loads as the reset state (empty lists, sentinel `last_request_time = 0`),
and a failed persist in `record_request` leaves the in-memory state — and
hence every subsequent decision in the process — exactly as a successful
persist would. -/
theorem storage_failures_contained :
    load_state LoadResult.absent = reset_state ∧
    load_state LoadResult.corrupt = reset_state ∧
    reset_state.minute_requests = [] ∧
    reset_state.daily_requests = [] ∧
    reset_state.request_timestamps = [] ∧
    reset_state.last_request_time = 0 ∧
    (∀ (s : RateLimiter) (now : ℚ) (ok : Bool),
      (record_request_persist s now ok).1 = record_request s now) ∧
    (∀ (s : RateLimiter) (now u : ℚ),
      can_make_request (record_request_persist s now false).1 u =
        can_make_request (record_request_persist s now true).1 u) :=
  ⟨rfl, rfl, rfl, rfl, rfl, rfl, fun _ _ _ => rfl, fun _ _ _ => rfl⟩

/-- C9: the snapshot persisted after any batch of `record_request` calls
holds exactly `minute_requests`, `daily_requests` and `last_request_time`;
reloading it gives an empty burst list, and a fresh controller loaded from
it produces the same `get_stats` output as the original. -/
theorem persistence_roundtrip (ts : List ℚ) (now : ℚ) :
    (save_state (recordAll reset_state ts)).minute_requests =
      (recordAll reset_state ts).minute_requests ∧
    (save_state (recordAll reset_state ts)).daily_requests =
      (recordAll reset_state ts).daily_requests ∧
    (save_state (recordAll reset_state ts)).last_request_time =
      (recordAll reset_state ts).last_request_time ∧
    (load_state (LoadResult.ok (save_state (recordAll reset_state ts)))).request_timestamps =
      [] ∧
    (get_stats (load_state (LoadResult.ok (save_state (recordAll reset_state ts)))) now).2 =
      (get_stats (recordAll reset_state ts) now).2 :=
  ⟨rfl, rfl, rfl, rfl, rfl⟩

/-- C6: `can_make_request` is side-effect-free except for pruning: its
state output is the pruned state, pruning at the same time is idempotent
(so an immediate second call sees the same state and returns the same
decision), pruning at a later time gives the same state as pruning once at
the later time, and a repeated `get_stats` reports the same counts. -/
theorem pruning_idempotent (s : RateLimiter) (now d : ℚ) :
    clean_old_requests (clean_old_requests s now) now = clean_old_requests s now ∧
    can_make_request (can_make_request s now).1 now = can_make_request s now ∧
    (get_stats (get_stats s now).1 now).2 = (get_stats s now).2 ∧
    (0 ≤ d →
      clean_old_requests (clean_old_requests s now) (now + d) =
        clean_old_requests s (now + d)) := by
  refine ⟨clean_idem s now, ?_, ?_, ?_⟩
  · rw [can_make_request_fst, can_make_request_clean]
  · show (get_stats (clean_old_requests s now) now).2 = (get_stats s now).2
    simp only [get_stats, clean_idem]
  · intro hd
    simp only [clean_old_requests, RateLimiter.mk.injEq]
    refine ⟨?_, ?_, ?_, trivial⟩ <;> exact filter_window_mono _ _ _ (by linarith)

/-- Witness for C6: ten calls at time 0, pruned at time 61 and again one
second later, give the same state as pruning once at the later time. -/
theorem pruning_idempotent_witness :
    clean_old_requests (clean_old_requests s10z 61) (61 + 1) =
      clean_old_requests s10z (61 + 1) :=
  (pruning_idempotent s10z 61 1).2.2.2 (by decide)

/-- C7: in every state reached by any sequence of prune/record operations
followed by a `record_request` at a time `t` no earlier than every prior
timestamp, `last_request_time` equals `t`, `t` belongs to all three lists
(they are appended together), and `t` bounds every entry of their union —
i.e. `last_request_time` is the maximum of the union. -/
theorem last_request_time_is_max (s : RateLimiter) (ops : List Op) (t b : ℚ)
    (hb : listsBounded s b) (hbt : b ≤ t)
    (hops : ∀ op ∈ ops, opTime op ≤ t) :
    (record_request (applyOps s ops) t).last_request_time = t ∧
    t ∈ (record_request (applyOps s ops) t).minute_requests ∧
    t ∈ (record_request (applyOps s ops) t).daily_requests ∧
    t ∈ (record_request (applyOps s ops) t).request_timestamps ∧
    listsBounded (record_request (applyOps s ops) t) t := by
  have hb' : listsBounded (applyOps s ops) t :=
    listsBounded_applyOps s ops t (listsBounded_mono hb hbt) hops
  refine ⟨rfl, ?_, ?_, ?_, listsBounded_record hb' le_rfl⟩ <;>
    exact List.mem_append_right _ (List.mem_singleton.mpr rfl)

/-- Witness for C7: record at time 1, prune at time 2, then record at
time 3: the last request time 3 is in all three lists and bounds them. -/
theorem last_request_time_is_max_witness :
    (record_request (applyOps reset_state [Op.record 1, Op.prune 2]) 3).last_request_time =
      3 ∧
    3 ∈ (record_request (applyOps reset_state [Op.record 1, Op.prune 2]) 3).minute_requests ∧
    3 ∈ (record_request (applyOps reset_state [Op.record 1, Op.prune 2]) 3).daily_requests ∧
    3 ∈ (record_request (applyOps reset_state
        [Op.record 1, Op.prune 2]) 3).request_timestamps ∧
    listsBounded (record_request (applyOps reset_state [Op.record 1, Op.prune 2]) 3) 3 :=
  last_request_time_is_max reset_state [Op.record 1, Op.prune 2] 3 0 (by decide) (by decide)
    (by decide)

/-- C10: `record_request` appends unconditionally (it re-checks no
ceiling), `get_stats` reports `limit - used` over the pruned lists as a
signed integer, and driving the counts past the ceilings (11 calls in a
minute, 1501 calls in a day) yields remaining counts of `-1` — not
clamped at zero. -/
theorem record_unconditional_negative_remaining :
    (∀ (s : RateLimiter) (now : ℚ),
      (record_request s now).minute_requests.length = s.minute_requests.length + 1 ∧
      (record_request s now).daily_requests.length = s.daily_requests.length + 1 ∧
      (record_request s now).request_timestamps.length =
        s.request_timestamps.length + 1 ∧
      (record_request s now).last_request_time = now) ∧
    (∀ (s : RateLimiter) (now : ℚ),
      (get_stats s now).2.minute_remaining =
        (MAX_REQUESTS_PER_MINUTE : ℤ) -
          (clean_old_requests s now).minute_requests.length ∧
      (get_stats s now).2.daily_remaining =
        (MAX_REQUESTS_PER_DAY : ℤ) -
          (clean_old_requests s now).daily_requests.length) ∧
    (get_stats (recordAll reset_state (List.replicate 11 1)) 1).2.minute_remaining = -1 ∧
    (get_stats (recordAll reset_state (List.replicate 1501 1)) 1).2.daily_remaining = -1 := by
  refine ⟨fun s now =>
      ⟨by simp [record_request], by simp [record_request], by simp [record_request], rfl⟩,
    fun s now => ⟨rfl, rfl⟩, by decide, ?_⟩
  have hd : (recordAll reset_state (List.replicate 1501 1)).daily_requests =
      List.replicate 1501 1 := by
    have h := (recordAll_lists reset_state (List.replicate 1501 1)).2.1
    rwa [show reset_state.daily_requests = [] from rfl, List.nil_append] at h
  have e : (clean_old_requests (recordAll reset_state
      (List.replicate 1501 1)) 1).daily_requests = List.replicate 1501 1 := by
    simp only [clean_old_requests]
    rw [hd]
    simp only [List.filter_replicate, decide_eq_true_eq]
    rw [if_pos (by norm_num)]
  show (MAX_REQUESTS_PER_DAY : ℤ) -
      (clean_old_requests (recordAll reset_state
        (List.replicate 1501 1)) 1).daily_requests.length = -1
  rw [e, List.length_replicate]
  decide

end AiHero
